import Mathlib

/-!
Shallow embedding of the edu-microservice repository (event-sourced order /
inventory services, saga orchestrator, marketing projector) and proofs of the
spec claims about it.

Conventions of the embedding:
* Python `dict` event payloads are modelled by one record `EventPayload` whose
  fields cover every key a handler reads; a key absent from a concrete payload
  is the field's default value.
* UUIDs and ISO timestamps are carried as opaque `String`s.
* Python `float` money amounts are modelled as `Rat`.
* Python `int` quantities are modelled as `Int` (they may go negative).
* A database transaction that raises (unique-constraint violation) aborts with
  no state change; such an operation returns `none` / an error result with the
  state unchanged.
-/

/-- Payload of an event (`event_data` dict in the source).  Union of the keys
of OrderCreated, OrderConfirmed, OrderCancelled, InventoryReserved,
InventoryReservationFailed, InventoryReleased. -/
structure EventPayload where
  order_id : String := ""
  customer_name : String := ""
  product_id : String := ""
  product_name : String := ""
  quantity : Int := 0
  total_price : Rat := 0
  reason : String := ""
  quantity_requested : Int := 0
  quantity_available : Int := 0
  timestamp : String := ""
deriving DecidableEq, Repr

/-- One row of the `event_store` table restricted to a single aggregate_id
(the unique constraint on `(aggregate_id, version)` becomes uniqueness of
`version` within the list). `created_at` is not read by any claim. -/
structure StoredEvent where
  event_type : String
  event_data : EventPayload
  version : Nat
deriving DecidableEq, Repr

/-- `True` iff some stored event already carries version `v`
(the DB unique constraint on `(aggregate_id, version)`). -/
def hasVersion (store : List StoredEvent) (v : Nat) : Bool :=
  store.any (fun e => e.version == v)

/-- `event_store.append_event`: inserts a row with
`version = expected_version + 1`; the insert fails (unique-constraint
violation, transaction aborted) when that version already exists. -/
def append_event (store : List StoredEvent) (event_type : String)
    (event_data : EventPayload) (expected_version : Nat) :
    Option (List StoredEvent) :=
  let new_version := expected_version + 1
  if hasVersion store new_version then none
  else some (store ++ [⟨event_type, event_data, new_version⟩])

/-- Insert a stored event into a version-sorted list, keeping it sorted. -/
def insertByVersion (e : StoredEvent) : List StoredEvent → List StoredEvent
  | [] => [e]
  | x :: xs => if e.version ≤ x.version then e :: x :: xs
               else x :: insertByVersion e xs

/-- `event_store.load_events`: all events of the aggregate ordered
ascending by `version` (the SQL `ORDER BY version ASC`). -/
def load_events (store : List StoredEvent) : List StoredEvent :=
  store.foldr insertByVersion []

/-- The version computed by a command as
`events[-1]["version"] if events else 0` where `events = load_events(...)`:
the last element of the version-sorted list is the largest stored version,
modelled directly as the maximum (0 on an empty store). -/
def currentVersion (store : List StoredEvent) : Nat :=
  store.foldr (fun e m => max e.version m) 0

-- ────────────────────────────────────────────────────────────────────
-- Order aggregate (services/order/app/aggregate.py)
-- ────────────────────────────────────────────────────────────────────

/-- `OrderAggregate.__init__` defaults: `id`/`product_id` start as Python
`None`, modelled by the empty string. -/
structure OrderAggregate where
  id : String := ""
  customer_name : String := ""
  product_id : String := ""
  product_name : String := ""
  quantity : Int := 0
  total_price : Rat := 0
  status : String := "UNKNOWN"
  version : Nat := 0
deriving DecidableEq, Repr

def OrderAggregate.apply_order_created (a : OrderAggregate)
    (d : EventPayload) : OrderAggregate :=
  { a with
    id := d.order_id
    customer_name := d.customer_name
    product_id := d.product_id
    product_name := d.product_name
    quantity := d.quantity
    total_price := d.total_price
    status := "PENDING" }

def OrderAggregate.apply_order_confirmed (a : OrderAggregate)
    (_d : EventPayload) : OrderAggregate :=
  { a with status := "CONFIRMED" }

def OrderAggregate.apply_order_cancelled (a : OrderAggregate)
    (_d : EventPayload) : OrderAggregate :=
  { a with status := "CANCELLED" }

/-- `OrderAggregate.apply_event`: dispatch on the event-type string; an
unknown type is ignored. -/
def OrderAggregate.apply_event (a : OrderAggregate) (event_type : String)
    (event_data : EventPayload) : OrderAggregate :=
  if event_type == "OrderCreated" then a.apply_order_created event_data
  else if event_type == "OrderConfirmed" then a.apply_order_confirmed event_data
  else if event_type == "OrderCancelled" then a.apply_order_cancelled event_data
  else a

/-- `OrderAggregate.from_events`: fold the events, setting `version` to each
event's version after applying it. -/
def OrderAggregate.from_events (events : List StoredEvent) : OrderAggregate :=
  events.foldl
    (fun a e => { a.apply_event e.event_type e.event_data with version := e.version })
    {}

-- ────────────────────────────────────────────────────────────────────
-- Inventory commands (services/inventory/app/commands.py)
-- ────────────────────────────────────────────────────────────────────

/-- One row of `inventory_read_model` (only the columns the commands read
or write). -/
structure InvRow where
  quantity : Int
  reserved : Int
deriving DecidableEq, Repr

/-- Inventory-service state for one product: the read-model row (if the
product exists) and the event-store rows whose aggregate_id is the
product_id. -/
structure InvState where
  row : Option InvRow
  events : List StoredEvent
deriving DecidableEq, Repr

/-- Result dict of an inventory command: `{"success": ..., "reason": ...?}`. -/
structure CmdResult where
  success : Bool
  reason : Option String := none
deriving DecidableEq, Repr

/-- `reserve_inventory`:
1. read `quantity, reserved` from the read model (absent row → failure);
2. if `available < quantity` append `InventoryReservationFailed` and return
   failure with a reason string, leaving the read model untouched;
3. otherwise append `InventoryReserved` and `reserved += quantity`.
A unique-constraint failure on the append aborts the transaction with no
state change (the endpoint then answers 500). -/
def reserve_inventory (st : InvState) (product_id order_id : String)
    (quantity : Int) : CmdResult × InvState :=
  match st.row with
  | none => (⟨false, some "Product not found"⟩, st)
  | some row =>
    let available := row.quantity - row.reserved
    if available < quantity then
      let event_data : EventPayload :=
        { order_id := order_id, product_id := product_id,
          quantity_requested := quantity, quantity_available := available }
      match append_event st.events "InventoryReservationFailed" event_data
          (currentVersion st.events) with
      | none => (⟨false, some "storage error"⟩, st)
      | some evs =>
        (⟨false,
          some s!"Insufficient stock: requested={quantity}, available={available}"⟩,
         { st with events := evs })
    else
      let event_data : EventPayload :=
        { order_id := order_id, product_id := product_id, quantity := quantity }
      match append_event st.events "InventoryReserved" event_data
          (currentVersion st.events) with
      | none => (⟨false, some "storage error"⟩, st)
      | some evs =>
        (⟨true, none⟩,
         { row := some { row with reserved := row.reserved + quantity },
           events := evs })

/-- `release_inventory`: append `InventoryReleased` and
`reserved -= quantity` unconditionally — no validation that a matching
reservation exists.  The SQL `UPDATE ... WHERE id = ...` on an absent row
updates nothing (`Option.map`). -/
def release_inventory (st : InvState) (product_id order_id : String)
    (quantity : Int) : CmdResult × InvState :=
  let event_data : EventPayload :=
    { order_id := order_id, product_id := product_id, quantity := quantity }
  match append_event st.events "InventoryReleased" event_data
      (currentVersion st.events) with
  | none => (⟨false, some "storage error"⟩, st)
  | some evs =>
    (⟨true, none⟩,
     { row := st.row.map (fun r => { r with reserved := r.reserved - quantity }),
       events := evs })

-- ────────────────────────────────────────────────────────────────────
-- Order commands (services/order/app/commands.py)
-- ────────────────────────────────────────────────────────────────────

/-- Order-service state for one order: its event-store rows and the
`orders_read_model` row (only the `status` column matters to the claims;
`none` = no row). -/
structure OrderStore where
  events : List StoredEvent
  readStatus : Option String
deriving DecidableEq, Repr

/-- The body of a `POST /commands/orders` request. -/
structure OrderInput where
  order_id : String := ""
  customer_name : String := ""
  product_id : String := ""
  product_name : String := ""
  quantity : Int := 0
  total_price : Rat := 0
deriving DecidableEq, Repr

/-- `create_order`: append `OrderCreated` at expected_version 0, INSERT the
read-model row in 'PENDING'.  Either statement failing (version 1 taken, or
a read-model row already present) aborts the transaction: `none`, no state
change. -/
def create_order (inp : OrderInput) (os : OrderStore) :
    Option (OrderAggregate × OrderStore) :=
  let event_data : EventPayload :=
    { order_id := inp.order_id, customer_name := inp.customer_name,
      product_id := inp.product_id, product_name := inp.product_name,
      quantity := inp.quantity, total_price := inp.total_price }
  match append_event os.events "OrderCreated" event_data 0 with
  | none => none
  | some evs =>
    match os.readStatus with
    | some _ => none
    | none =>
      let agg := { ({} : OrderAggregate).apply_order_created event_data with
                   version := 1 }
      some (agg, { events := evs, readStatus := some "PENDING" })

/-- `confirm_order`: reconstruct the aggregate from the loaded events, append
`OrderConfirmed` at `expected_version = agg.version`, UPDATE the read model to
'CONFIRMED' (no-op when the row is absent), return the aggregate with the
confirm applied.  No precondition is checked on the order's existence or
status. -/
def confirm_order (os : OrderStore) (order_id : String) :
    Option (OrderAggregate × OrderStore) :=
  let agg := OrderAggregate.from_events (load_events os.events)
  let event_data : EventPayload := { order_id := order_id }
  match append_event os.events "OrderConfirmed" event_data agg.version with
  | none => none
  | some evs =>
    some ({ agg.apply_order_confirmed event_data with version := agg.version + 1 },
          { events := evs, readStatus := os.readStatus.map (fun _ => "CONFIRMED") })

/-- `cancel_order`: same shape as `confirm_order`, producing `OrderCancelled`
and read-model status 'CANCELLED'. -/
def cancel_order (os : OrderStore) (order_id reason : String) :
    Option (OrderAggregate × OrderStore) :=
  let agg := OrderAggregate.from_events (load_events os.events)
  let event_data : EventPayload := { order_id := order_id, reason := reason }
  match append_event os.events "OrderCancelled" event_data agg.version with
  | none => none
  | some evs =>
    some ({ agg.apply_order_cancelled event_data with version := agg.version + 1 },
          { events := evs, readStatus := os.readStatus.map (fun _ => "CANCELLED") })

/-- The event rows are listed in strictly ascending version order (this is
how every reachable store looks, since commands append at max+1). -/
def sortedByVersion (l : List StoredEvent) : Prop :=
  List.Chain' (fun a b => a.version < b.version) l

instance (l : List StoredEvent) : Decidable (sortedByVersion l) :=
  inferInstanceAs
    (Decidable (List.Chain' (fun a b : StoredEvent => a.version < b.version) l))

-- ────────────────────────────────────────────────────────────────────
-- Saga orchestrator (services/saga/app/orchestrator.py)
-- ────────────────────────────────────────────────────────────────────

/-- One entry of the saga log.  The wall-clock `timestamp` field is opaque
and omitted.  `error` is the optional "error" key. -/
structure SagaStep where
  step : Nat
  action : String
  status : String
  error : Option String := none
deriving DecidableEq, Repr

/-- Environment fate of one outbound HTTP call: either the request is
delivered and the downstream service's handler runs (its HTTP status then
follows from the handler's result), or the transport fails (timeout /
network loss / 5xx-free `httpx.HTTPError`) and the downstream state is
unchanged. -/
inductive CallFate
  | delivered
  | transportError
deriving DecidableEq, Repr

/-- Fates of the (up to) four outbound calls one `execute` can make. -/
structure Fates where
  create : CallFate
  reserve : CallFate
  cancel : CallFate
  confirm : CallFate
deriving DecidableEq, Repr

/-- The state of both downstream services for the one order / one product a
saga touches. -/
structure World where
  order : OrderStore
  inv : InvState
deriving DecidableEq, Repr

/-- The dict `execute` returns, plus the saga events published to the
`saga_events` channel during the run. -/
structure SagaResult where
  success : Bool
  saga_log : List SagaStep
  published : List String
deriving DecidableEq, Repr

/-- Mutate the last log entry's `status` (and `error`) in place, as
`saga_log[-1]["status"] = ...` does. -/
def markLast : List SagaStep → String → Option String → List SagaStep
  | [], _, _ => []
  | [e], st, err => [{ e with status := st, error := err }]
  | e :: rest, st, err => e :: markLast rest st err

/-- The `POST .../cancel` endpoint: runs `cancel_order`; a storage failure
aborts with no state change (HTTP 500), otherwise 200. -/
def cancelEndpoint (order_id reason : String) (os : OrderStore) : OrderStore :=
  match cancel_order os order_id reason with
  | none => os
  | some (_, os') => os'

/-- The `POST .../confirm` endpoint: runs `confirm_order`; a storage failure
aborts with no state change (HTTP 500), otherwise 200. -/
def confirmEndpoint (order_id : String) (os : OrderStore) : OrderStore :=
  match confirm_order os order_id with
  | none => os
  | some (_, os') => os'

/-- The compensation branch shared by both step-2 `except` arms: append the
step-3 `CancelOrder (COMPENSATING)` entry, POST the cancel (the response
status is not checked, so a delivered call is always marked COMPLETED; only
a transport error marks it FAILED, without an "error" key), publish
`SagaCompensated`, return `success=False`. -/
def compensate (f : Fates) (order_id reason : String)
    (saga_log : List SagaStep) (w : World) : SagaResult × World :=
  let saga_log := saga_log ++
    [{ step := 3, action := "CancelOrder (COMPENSATING)", status := "EXECUTING" }]
  match f.cancel with
  | .delivered =>
    (⟨false, markLast saga_log "COMPLETED" none, ["SagaCompensated"]⟩,
     { w with order := cancelEndpoint order_id reason w.order })
  | .transportError =>
    (⟨false, markLast saga_log "FAILED" none, ["SagaCompensated"]⟩, w)

/-- `OrderSagaOrchestrator.execute`.

Step 1 POSTs CreateOrder and checks `raise_for_status`: both a transport
error and an error response (e.g. the 500 from a duplicate order_id) land in
the `except httpx.HTTPError` arm → `SagaFailed`, `success=False`.

Step 2 POSTs ReserveInventory and checks `raise_for_status`: a 409 business
reject raises `httpx.HTTPStatusError` (error text = response body), any
other transport failure raises a plain `httpx.HTTPError`; both arms run the
compensation.

Step 3 POSTs ConfirmOrder *without* checking the response status: a
delivered call is marked COMPLETED whatever the order service answered;
only a transport error marks the step FAILED.  Either way the saga
publishes `SagaCompleted` and returns `success=True`. -/
def execute (f : Fates) (inp : OrderInput) (w : World) : SagaResult × World :=
  let saga_log : List SagaStep :=
    [{ step := 1, action := "CreateOrder", status := "EXECUTING" }]
  match f.create with
  | .transportError =>
    (⟨false, markLast saga_log "FAILED" (some "transport error"), ["SagaFailed"]⟩, w)
  | .delivered =>
    match create_order inp w.order with
    | none =>
      (⟨false, markLast saga_log "FAILED" (some "http status error"), ["SagaFailed"]⟩, w)
    | some (_, os1) =>
      let w := { w with order := os1 }
      let saga_log := markLast saga_log "COMPLETED" none ++
        [{ step := 2, action := "ReserveInventory", status := "EXECUTING" }]
      match f.reserve with
      | .transportError =>
        compensate f inp.order_id "Inventory service error"
          (markLast saga_log "FAILED" (some "transport error")) w
      | .delivered =>
        let (res, inv2) :=
          reserve_inventory w.inv inp.product_id inp.order_id inp.quantity
        let w := { w with inv := inv2 }
        if res.success then
          let saga_log := markLast saga_log "COMPLETED" none ++
            [{ step := 3, action := "ConfirmOrder", status := "EXECUTING" }]
          match f.confirm with
          | .delivered =>
            (⟨true, markLast saga_log "COMPLETED" none, ["SagaCompleted"]⟩,
             { w with order := confirmEndpoint inp.order_id w.order })
          | .transportError =>
            (⟨true, markLast saga_log "FAILED" (some "transport error"),
              ["SagaCompleted"]⟩, w)
        else
          compensate f inp.order_id "Inventory reservation failed"
            (markLast saga_log "FAILED" res.reason) w

/-- Status of the order aggregate reconstructed from the stored events. -/
def aggStatus (w : World) : String :=
  (OrderAggregate.from_events (load_events w.order.events)).status

/-- The `reserved` column of the inventory read-model row. -/
def reservedOf (w : World) : Option Int :=
  w.inv.row.map (fun r => r.reserved)

/-- The `quantity` column of the inventory read-model row. -/
def quantityOf (w : World) : Option Int :=
  w.inv.row.map (fun r => r.quantity)

-- ────────────────────────────────────────────────────────────────────
-- Marketing projector (services/marketing/app/projections.py, subscriber.py)
-- ────────────────────────────────────────────────────────────────────

/-- `SELECT ... WHERE key = k` on a keyed table (association list). -/
def lookupRow {ρ : Type} (k : String) (t : List (String × ρ)) : Option ρ :=
  (t.find? (fun p => p.1 == k)).map (fun p => p.2)

/-- `UPDATE ... WHERE key = k`: updates the matching rows, a no-op when the
key is absent. -/
def updateRow {ρ : Type} (k : String) (f : ρ → ρ) (t : List (String × ρ)) :
    List (String × ρ) :=
  t.map (fun p => if p.1 == k then (p.1, f p.2) else p)

/-- `INSERT ... ON CONFLICT (key) DO UPDATE`: insert when the key is new,
update the existing row otherwise. -/
def upsertRow {ρ : Type} (k : String) (ins : ρ) (upd : ρ → ρ)
    (t : List (String × ρ)) : List (String × ρ) :=
  match lookupRow k t with
  | none => t ++ [(k, ins)]
  | some _ => updateRow k upd t

/-- `INSERT ... ON CONFLICT (key) DO NOTHING`. -/
def insertIfAbsent {ρ : Type} (k : String) (ins : ρ)
    (t : List (String × ρ)) : List (String × ρ) :=
  match lookupRow k t with
  | none => t ++ [(k, ins)]
  | some _ => t

/-- `datetime.fromisoformat(ts).date()`: the date part of an ISO-8601
timestamp is its first 10 characters (YYYY-MM-DD). -/
def dateOf (ts : String) : String :=
  (ts.toList.take 10).asString

/-- One `marketing_order_snapshot` row (keyed by order_id). -/
structure SnapshotRow where
  customer_name : String
  product_id : String
  product_name : String
  quantity : Int
  total_price : Rat
  status : String
  order_date : String
  created_at : String
  updated_at : String
deriving DecidableEq, Repr

/-- One `customer_summary` row (keyed by customer_name);
`confirmed_orders` / `cancelled_orders` default to 0 on insert. -/
structure CustomerRow where
  total_orders : Int
  confirmed_orders : Int := 0
  cancelled_orders : Int := 0
  total_revenue : Rat
  avg_order_value : Rat
  first_order_at : String
  last_order_at : String
  updated_at : String
deriving DecidableEq, Repr

/-- One `product_popularity` row (keyed by product_id);
confirmed counters default to 0 on insert. -/
structure ProductRow where
  product_name : String
  total_units_ordered : Int
  total_order_count : Int
  confirmed_units : Int := 0
  confirmed_order_count : Int := 0
  total_revenue : Rat
  unique_customers : Int
  updated_at : String
deriving DecidableEq, Repr

/-- One `daily_sales_summary` row (keyed by sale_date). -/
structure DailyRow where
  total_orders : Int
  confirmed_orders : Int := 0
  cancelled_orders : Int := 0
  total_revenue : Rat
  avg_order_value : Rat
  updated_at : String
deriving DecidableEq, Repr

/-- The five tables owned by the marketing projector.
`product_customer_map` is the set of `(product_id, customer_name)` pairs. -/
structure MarketingDB where
  snapshot : List (String × SnapshotRow)
  customer_summary : List (String × CustomerRow)
  product_popularity : List (String × ProductRow)
  product_customer_map : List (String × String)
  daily_sales : List (String × DailyRow)
deriving DecidableEq, Repr

/-- `_project_order_created`: the five statements of the handler, run in
source order inside one transaction. -/
def projectOrderCreated (d : EventPayload) (db : MarketingDB) : MarketingDB :=
  let ts := d.timestamp
  let order_date := dateOf ts
  -- 1. snapshot INSERT ... ON CONFLICT (order_id) DO NOTHING
  let snapshot := insertIfAbsent d.order_id
    { customer_name := d.customer_name, product_id := d.product_id,
      product_name := d.product_name, quantity := d.quantity,
      total_price := d.total_price, status := "PENDING",
      order_date := order_date, created_at := ts, updated_at := ts }
    db.snapshot
  -- 2. customer_summary UPSERT
  let customers := upsertRow d.customer_name
    { total_orders := 1, total_revenue := d.total_price,
      avg_order_value := d.total_price, first_order_at := ts,
      last_order_at := ts, updated_at := ts }
    (fun r =>
      { r with
        total_orders := r.total_orders + 1
        total_revenue := r.total_revenue + d.total_price
        avg_order_value :=
          (r.total_revenue + d.total_price) / ((r.total_orders : Rat) + 1)
        last_order_at := ts
        updated_at := ts })
    db.customer_summary
  -- 3. product_popularity UPSERT
  let products := upsertRow d.product_id
    { product_name := d.product_name, total_units_ordered := d.quantity,
      total_order_count := 1, total_revenue := d.total_price,
      unique_customers := 0, updated_at := ts }
    (fun r =>
      { r with
        total_units_ordered := r.total_units_ordered + d.quantity
        total_order_count := r.total_order_count + 1
        total_revenue := r.total_revenue + d.total_price
        updated_at := ts })
    db.product_popularity
  -- 4. product_customer_map INSERT ... ON CONFLICT DO NOTHING, then
  --    recompute unique_customers as the COUNT for this product_id
  let pcmap :=
    if (d.product_id, d.customer_name) ∈ db.product_customer_map then
      db.product_customer_map
    else db.product_customer_map ++ [(d.product_id, d.customer_name)]
  let products := updateRow d.product_id
    (fun r =>
      { r with unique_customers :=
          ((pcmap.filter (fun p => p.1 == d.product_id)).length : Int) })
    products
  -- 5. daily_sales_summary UPSERT
  let daily := upsertRow order_date
    { total_orders := 1, total_revenue := d.total_price,
      avg_order_value := d.total_price, updated_at := ts }
    (fun r =>
      { r with
        total_orders := r.total_orders + 1
        total_revenue := r.total_revenue + d.total_price
        avg_order_value :=
          (r.total_revenue + d.total_price) / ((r.total_orders : Rat) + 1)
        updated_at := ts })
    db.daily_sales
  { snapshot := snapshot, customer_summary := customers,
    product_popularity := products, product_customer_map := pcmap,
    daily_sales := daily }

/-- `_project_order_confirmed`: look the order up in the snapshot; when the
order_id is unknown return with no statement executed; otherwise set the
snapshot status and bump the three confirmed counters (plain UPDATEs, no-ops
on absent rows). -/
def projectOrderConfirmed (d : EventPayload) (db : MarketingDB) : MarketingDB :=
  let ts := d.timestamp
  match lookupRow d.order_id db.snapshot with
  | none => db
  | some order =>
    { db with
      snapshot := updateRow d.order_id
        (fun r => { r with status := "CONFIRMED", updated_at := ts }) db.snapshot
      customer_summary := updateRow order.customer_name
        (fun r => { r with confirmed_orders := r.confirmed_orders + 1,
                           updated_at := ts }) db.customer_summary
      product_popularity := updateRow order.product_id
        (fun r => { r with
            confirmed_units := r.confirmed_units + order.quantity,
            confirmed_order_count := r.confirmed_order_count + 1,
            updated_at := ts }) db.product_popularity
      daily_sales := updateRow order.order_date
        (fun r => { r with confirmed_orders := r.confirmed_orders + 1,
                           updated_at := ts }) db.daily_sales }

/-- `_project_order_cancelled`: analogous to the confirmed handler; updates
the snapshot status and the customer / daily cancelled counters (the source
touches no product_popularity row here). -/
def projectOrderCancelled (d : EventPayload) (db : MarketingDB) : MarketingDB :=
  let ts := d.timestamp
  match lookupRow d.order_id db.snapshot with
  | none => db
  | some order =>
    { db with
      snapshot := updateRow d.order_id
        (fun r => { r with status := "CANCELLED", updated_at := ts }) db.snapshot
      customer_summary := updateRow order.customer_name
        (fun r => { r with cancelled_orders := r.cancelled_orders + 1,
                           updated_at := ts }) db.customer_summary
      daily_sales := updateRow order.order_date
        (fun r => { r with cancelled_orders := r.cancelled_orders + 1,
                           updated_at := ts }) db.daily_sales }

/-- `projections.handle_event`: dispatch on the event-type string; unknown
types are ignored. -/
def handle_event (db : MarketingDB) (event_type : String)
    (d : EventPayload) : MarketingDB :=
  if event_type == "OrderCreated" then projectOrderCreated d db
  else if event_type == "OrderConfirmed" then projectOrderConfirmed d db
  else if event_type == "OrderCancelled" then projectOrderCancelled d db
  else db

/-- One parsed message of the `order_events` channel. -/
structure BusMessage where
  event_type : String
  data : EventPayload
deriving DecidableEq, Repr

/-- The subscriber loop of `run_subscriber`, processing the delivered
messages in order; per-message exceptions are swallowed so the subscription
always continues with the next message. -/
def run_subscriber (msgs : List BusMessage) (db : MarketingDB) : MarketingDB :=
  msgs.foldl (fun db m => handle_event db m.event_type m.data) db

-- ────────────────────────────────────────────────────────────────────
-- Command sequences against one aggregate's event store (claim C5)
-- ────────────────────────────────────────────────────────────────────

/-- The contiguous version sequence `[1, 2, ..., n]`. -/
def upto : Nat → List Nat
  | 0 => []
  | n + 1 => upto n ++ [n + 1]

/-- One command operation against an aggregate, as every command in the
source performs it: load the events to compute the current version `V`
(`events[-1]["version"] if events else 0`) and append the command's event at
`expected_version = V`. -/
def commandStep (store : List StoredEvent) (cmd : String × EventPayload) :
    Option (List StoredEvent) :=
  append_event store cmd.1 cmd.2 (currentVersion store)

/-- Run a sequence of command operations; a failed append aborts. -/
def runCommands (cmds : List (String × EventPayload))
    (store : List StoredEvent) : Option (List StoredEvent) :=
  match cmds with
  | [] => some store
  | c :: rest =>
    match commandStep store c with
    | none => none
    | some store' => runCommands rest store'

-- ────────────────────────────────────────────────────────────────────
-- Sequences of inventory operations (claim C4)
-- ────────────────────────────────────────────────────────────────────

/-- One inventory command invocation for a fixed product. -/
inductive InvOp
  | reserve (order_id : String) (quantity : Int)
  | release (order_id : String) (quantity : Int)
deriving DecidableEq, Repr

/-- State reached after one inventory command. -/
def applyInvOp (product_id : String) (st : InvState) : InvOp → InvState
  | .reserve oid q => (reserve_inventory st product_id oid q).2
  | .release oid q => (release_inventory st product_id oid q).2

/-- State reached after a sequence of inventory commands. -/
def runInvOps (product_id : String) (st : InvState) : List InvOp → InvState
  | [] => st
  | op :: rest => runInvOps product_id (applyInvOp product_id st op) rest

/-- Spec invariant I3 on the read-model row: `0 ≤ reserved ≤ quantity`
(vacuous when the product has no row). -/
def invariantHolds (st : InvState) : Bool :=
  match st.row with
  | none => true
  | some r => decide (0 ≤ r.reserved ∧ r.reserved ≤ r.quantity)

/-- An honest caller: every requested quantity is nonnegative, and every
release is covered by the currently reserved amount (the saga only releases
what it reserved). -/
def honestOps (product_id : String) (st : InvState) : List InvOp → Bool
  | [] => true
  | op :: rest =>
    (match op with
     | .reserve _ q => decide (0 ≤ q)
     | .release _ q =>
       decide (0 ≤ q) &&
       (match st.row with
        | none => true
        | some r => decide (q ≤ r.reserved))) &&
    honestOps product_id (applyInvOp product_id st op) rest

/-- A concrete event stream of an order that was created and then
cancelled (versions 1 and 2). -/
def cancelledStream : List StoredEvent :=
  [⟨"OrderCreated", { order_id := "o1" }, 1⟩,
   ⟨"OrderCancelled", { order_id := "o1" }, 2⟩]

-- ────────────────────────────────────────────────────────────────────
-- Lemmas: event store
-- ────────────────────────────────────────────────────────────────────

/-- Every stored version is bounded by `currentVersion`. -/
theorem version_le_currentVersion {store : List StoredEvent} {e : StoredEvent}
    (h : e ∈ store) : e.version ≤ currentVersion store := by
  induction store with
  | nil => cases h
  | cons x xs ih =>
    simp only [currentVersion, List.foldr_cons]
    rcases List.mem_cons.mp h with h | h
    · subst h; exact le_max_left _ _
    · have := ih h
      simp only [currentVersion] at this
      exact le_max_of_le_right this

/-- The successor of the maximum version is fresh, hence the optimistic
append at the loaded version always succeeds. -/
theorem hasVersion_succ_currentVersion (store : List StoredEvent) :
    hasVersion store (currentVersion store + 1) = false := by
  rw [hasVersion, List.any_eq_false]
  intro e he
  have h := version_le_currentVersion he
  simp only [beq_iff_eq]
  omega

theorem append_at_currentVersion (store : List StoredEvent)
    (t : String) (d : EventPayload) :
    append_event store t d (currentVersion store) =
      some (store ++ [⟨t, d, currentVersion store + 1⟩]) := by
  simp [append_event, hasVersion_succ_currentVersion store]

theorem load_events_sorted (l : List StoredEvent) (h : sortedByVersion l) :
    load_events l = l := by
  induction l with
  | nil => rfl
  | cons x xs ih =>
    have hx : sortedByVersion xs := h.tail
    have hstep : load_events (x :: xs) = insertByVersion x (load_events xs) := rfl
    rw [hstep, ih hx]
    cases xs with
    | nil => rfl
    | cons y ys =>
      have hxy : x.version < y.version := (List.chain'_cons.mp h).1
      simp [insertByVersion, Nat.le_of_lt hxy]

theorem from_events_foldl_version (l : List StoredEvent) (a : OrderAggregate) :
    (l.foldl (fun a e =>
        { a.apply_event e.event_type e.event_data with version := e.version })
      a).version
      = match l.getLast? with
        | none => a.version
        | some e => e.version := by
  induction l generalizing a with
  | nil => rfl
  | cons x xs ih =>
    rw [List.foldl_cons, ih]
    cases xs with
    | nil => rfl
    | cons y ys => rfl

/-- On a sorted store, the reconstructed aggregate's version is the loaded
maximum version. -/
theorem from_events_version (l : List StoredEvent) (h : sortedByVersion l) :
    (OrderAggregate.from_events l).version = currentVersion l := by
  rw [OrderAggregate.from_events, from_events_foldl_version]
  induction l with
  | nil => rfl
  | cons x xs ih =>
    cases xs with
    | nil => simp [currentVersion]
    | cons y ys =>
      have hxy : x.version < y.version := (List.chain'_cons.mp h).1
      have hycur : y.version ≤ currentVersion (y :: ys) := by
        simpa using version_le_currentVersion (List.mem_cons_self y ys)
      have htail := ih h.tail
      rw [List.getLast?_cons_cons]
      rw [htail]
      have hmax : currentVersion (x :: y :: ys)
          = max x.version (currentVersion (y :: ys)) := rfl
      rw [hmax]
      omega

-- ────────────────────────────────────────────────────────────────────
-- Claim C3 — reserve_inventory behaviour on an existing product
-- ────────────────────────────────────────────────────────────────────

/-- C3: for every call to ReserveInventory on an existing product: if the
requested quantity exceeds `available = quantity - reserved` the command
appends `InventoryReservationFailed` and returns failure with a reason text,
leaving `reserved` unchanged; otherwise (including equality) it appends
`InventoryReserved`, adds the quantity to `reserved`, and returns success. -/
theorem reserve_inventory_spec (st : InvState) (pid oid : String) (q : Int)
    (row : InvRow) (h : st.row = some row) :
    (row.quantity - row.reserved < q →
      (reserve_inventory st pid oid q).1.success = false ∧
      (reserve_inventory st pid oid q).1.reason.isSome = true ∧
      (reserve_inventory st pid oid q).2.row = st.row ∧
      (reserve_inventory st pid oid q).2.events = st.events ++
        [⟨"InventoryReservationFailed",
          { order_id := oid, product_id := pid, quantity_requested := q,
            quantity_available := row.quantity - row.reserved },
          currentVersion st.events + 1⟩]) ∧
    (q ≤ row.quantity - row.reserved →
      (reserve_inventory st pid oid q).1 = ⟨true, none⟩ ∧
      (reserve_inventory st pid oid q).2.row =
        some { row with reserved := row.reserved + q } ∧
      (reserve_inventory st pid oid q).2.events = st.events ++
        [⟨"InventoryReserved",
          { order_id := oid, product_id := pid, quantity := q },
          currentVersion st.events + 1⟩]) := by
  constructor
  · intro hlt
    simp [reserve_inventory, h, if_pos hlt, append_at_currentVersion]
  · intro hge
    simp [reserve_inventory, h, if_neg (not_lt.mpr hge), append_at_currentVersion]

/-- Witness for C3 at the boundary `quantity_requested = available`:
product `{quantity 10, reserved 0}`, request 10 succeeds with reserved 10. -/
theorem reserve_inventory_spec_witness :
    (⟨some ⟨10, 0⟩, []⟩ : InvState).row = some ⟨10, 0⟩ ∧
    ((10 : Int) ≤ 10 - 0 ∧
     ((reserve_inventory ⟨some ⟨10, 0⟩, []⟩ "p1" "o1" 10).1 = ⟨true, none⟩ ∧
      (reserve_inventory ⟨some ⟨10, 0⟩, []⟩ "p1" "o1" 10).2.row = some ⟨10, 10⟩ ∧
      (reserve_inventory ⟨some ⟨10, 0⟩, []⟩ "p1" "o1" 10).2.events =
        [⟨"InventoryReserved",
          { order_id := "o1", product_id := "p1", quantity := 10 }, 1⟩])) :=
  ⟨rfl, by decide,
   (reserve_inventory_spec ⟨some ⟨10, 0⟩, []⟩ "p1" "o1" 10 ⟨10, 0⟩ rfl).2 (by decide)⟩

-- ────────────────────────────────────────────────────────────────────
-- Claim C4 — the reservation invariant under reserve/release sequences
-- ────────────────────────────────────────────────────────────────────

/-- Counterexample to C4 as stated: from `{quantity 5, reserved 0}` the
single-operation sequence `[ReleaseInventory(quantity 1)]` — a release with
no matching reservation, which `release_inventory` does not validate —
drives `reserved` to `-1`, violating `0 ≤ reserved`. -/
theorem invariant_release_cex :
    invariantHolds ⟨some ⟨5, 0⟩, []⟩ = true ∧
    (runInvOps "p1" ⟨some ⟨5, 0⟩, []⟩ [.release "o1" 1]).row = some ⟨5, -1⟩ ∧
    invariantHolds (runInvOps "p1" ⟨some ⟨5, 0⟩, []⟩ [.release "o1" 1]) = false := by
  decide

/-- C4 (amended): reachable states satisfy `0 ≤ reserved ≤ quantity`
provided the callers are honest — every requested quantity is nonnegative
and every release is covered by the currently reserved amount.  (As stated
the claim fails: an unmatched release makes `reserved` negative, see the
counterexample.) -/
theorem inventory_invariant_honest (pid : String) (st : InvState)
    (ops : List InvOp) (hinv : invariantHolds st = true)
    (hhon : honestOps pid st ops = true) :
    invariantHolds (runInvOps pid st ops) = true := by
  induction ops generalizing st with
  | nil => exact hinv
  | cons op rest ih =>
    cases op with
    | reserve oid q =>
      simp only [honestOps, Bool.and_eq_true, decide_eq_true_eq] at hhon
      refine ih _ ?_ hhon.2
      have hop := hhon.1
      cases hrow : st.row with
      | none =>
        simpa [applyInvOp, reserve_inventory, hrow] using hinv
      | some r =>
        rw [invariantHolds, hrow, decide_eq_true_eq] at hinv
        by_cases hav : r.quantity - r.reserved < q
        · simp [applyInvOp, reserve_inventory, hrow, if_pos hav,
            append_at_currentVersion, invariantHolds, hinv]
        · simp only [applyInvOp, reserve_inventory, hrow, if_neg hav,
            append_at_currentVersion, invariantHolds, decide_eq_true_eq]
          omega
    | release oid q =>
      simp only [honestOps, Bool.and_eq_true, decide_eq_true_eq] at hhon
      refine ih _ ?_ hhon.2
      have hop := hhon.1
      cases hrow : st.row with
      | none =>
        simp [applyInvOp, release_inventory, hrow,
          append_at_currentVersion, invariantHolds]
      | some r =>
        rw [invariantHolds, hrow, decide_eq_true_eq] at hinv
        obtain ⟨hq, hqr⟩ := hop
        rw [hrow] at hqr
        simp only [decide_eq_true_eq] at hqr
        simp only [applyInvOp, release_inventory, hrow,
          append_at_currentVersion, invariantHolds, Option.map_some',
          decide_eq_true_eq]
        omega

/-- Witness for the amended C4: `{quantity 5, reserved 0}` with the honest
sequence reserve 3, release 2, release 1 keeps the invariant. -/
theorem inventory_invariant_honest_witness :
    invariantHolds ⟨some ⟨5, 0⟩, []⟩ = true ∧
    honestOps "p1" ⟨some ⟨5, 0⟩, []⟩
      [.reserve "o1" 3, .release "o1" 2, .release "o1" 1] = true ∧
    invariantHolds (runInvOps "p1" ⟨some ⟨5, 0⟩, []⟩
      [.reserve "o1" 3, .release "o1" 2, .release "o1" 1]) = true :=
  ⟨by decide, by decide,
   inventory_invariant_honest "p1" ⟨some ⟨5, 0⟩, []⟩
     [.reserve "o1" 3, .release "o1" 2, .release "o1" 1]
     (by decide) (by decide)⟩

-- ────────────────────────────────────────────────────────────────────
-- Claim C5 — contiguity of event versions under command sequences
-- ────────────────────────────────────────────────────────────────────

theorem foldr_max_upto (n : Nat) (c : Nat) :
    (upto n).foldr (fun v m => max v m) c = max n c := by
  induction n generalizing c with
  | zero => simp [upto]
  | succ k ih =>
    rw [upto, List.foldr_append]
    simp only [List.foldr_cons, List.foldr_nil]
    rw [ih]
    omega

/-- On a store whose versions are `[1..n]`, the loaded current version is
`n`. -/
theorem currentVersion_upto (store : List StoredEvent) (n : Nat)
    (h : store.map (fun e => e.version) = upto n) :
    currentVersion store = n := by
  have hfold : currentVersion store
      = (store.map (fun e => e.version)).foldr (fun v m => max v m) 0 := by
    rw [List.foldr_map]
    rfl
  rw [hfold, h, foldr_max_upto]
  omega

/-- C5: starting from a store whose versions are contiguous `1..N`, any
sequence of command operations (load current version `V`, append at
`expected_version = V`, duplicate inserts failing) succeeds and leaves the
versions contiguous `1..N'` with no gaps. -/
theorem command_versions_contiguous (cmds : List (String × EventPayload))
    (store : List StoredEvent)
    (h : store.map (fun e => e.version) = upto store.length) :
    ∃ store', runCommands cmds store = some store' ∧
      store'.map (fun e => e.version) = upto store'.length ∧
      store'.length = store.length + cmds.length := by
  induction cmds generalizing store with
  | nil => exact ⟨store, rfl, h, by simp⟩
  | cons c rest ih =>
    have hcur : currentVersion store = store.length :=
      currentVersion_upto store store.length h
    have hstep : commandStep store c =
        some (store ++ [StoredEvent.mk c.1 c.2 (store.length + 1)]) := by
      rw [commandStep, append_at_currentVersion, hcur]
    have hmap : (store ++ [StoredEvent.mk c.1 c.2 (store.length + 1)]).map
          (fun e => e.version)
        = upto (store ++ [StoredEvent.mk c.1 c.2 (store.length + 1)]).length := by
      simp only [List.map_append, List.length_append, List.map_cons,
        List.map_nil, List.length_cons, List.length_nil, h]
      rw [show store.length + (0 + 1) = store.length + 1 by omega]
      rfl
    obtain ⟨store', hrun, hvers, hlen⟩ :=
      ih (store ++ [StoredEvent.mk c.1 c.2 (store.length + 1)]) hmap
    refine ⟨store', ?_, hvers, ?_⟩
    · simp only [runCommands, hstep, hrun]
    · simp at hlen ⊢
      omega

/-- Witness for C5: two commands run from the empty store produce versions
`[1, 2]`. -/
theorem command_versions_contiguous_witness :
    ([] : List StoredEvent).map (fun e => e.version) = upto 0 ∧
    ∃ store', runCommands [("OrderCreated", {}), ("OrderConfirmed", {})] [] =
        some store' ∧
      store'.map (fun e => e.version) = upto store'.length ∧
      store'.length = 0 + 2 :=
  ⟨rfl, command_versions_contiguous
    [("OrderCreated", {}), ("OrderConfirmed", {})] [] rfl⟩

-- ────────────────────────────────────────────────────────────────────
-- Claims C8 / C9 — marketing projections
-- ────────────────────────────────────────────────────────────────────

theorem lookupRow_append_self {ρ : Type} (k : String) (r : ρ)
    (s : List (String × ρ)) (h : lookupRow k s = none) :
    lookupRow k (s ++ [(k, r)]) = some r := by
  induction s with
  | nil => simp [lookupRow, List.find?]
  | cons x xs ih =>
    rw [lookupRow, List.cons_append, List.find?] at *
    cases hx : (x.1 == k) with
    | true => simp [hx] at h
    | false =>
      simp only [hx] at h ⊢
      exact ih h

theorem lookupRow_insertIfAbsent_isSome {ρ : Type} (k : String) (r : ρ)
    (s : List (String × ρ)) :
    (lookupRow k (insertIfAbsent k r s)).isSome = true := by
  rw [insertIfAbsent]
  cases h : lookupRow k s with
  | none => rw [lookupRow_append_self k r s h]; rfl
  | some v => rw [h]; rfl

theorem insertIfAbsent_of_isSome {ρ : Type} (k : String) (r : ρ)
    (s : List (String × ρ)) (h : (lookupRow k s).isSome = true) :
    insertIfAbsent k r s = s := by
  rw [insertIfAbsent]
  cases hks : lookupRow k s with
  | none => rw [hks] at h; simp at h
  | some v => rfl

/-- C8: projecting the same `OrderCreated` event twice leaves the
`marketing_order_snapshot` table exactly as after the first projection —
the second insert is a no-op on the snapshot. -/
theorem order_created_snapshot_idempotent (d : EventPayload)
    (db : MarketingDB) :
    (projectOrderCreated d (projectOrderCreated d db)).snapshot =
      (projectOrderCreated d db).snapshot := by
  show insertIfAbsent d.order_id _ (projectOrderCreated d db).snapshot
      = (projectOrderCreated d db).snapshot
  apply insertIfAbsent_of_isSome
  show (lookupRow d.order_id (insertIfAbsent d.order_id _ db.snapshot)).isSome
      = true
  apply lookupRow_insertIfAbsent_isSome

/-- C9: an `OrderConfirmed` or `OrderCancelled` event whose order_id has no
snapshot row mutates none of the marketing tables, and the subscription
continues with the remaining messages as if the event had never arrived. -/
theorem confirm_unknown_order_noop (d : EventPayload) (db : MarketingDB)
    (rest : List BusMessage) (h : lookupRow d.order_id db.snapshot = none) :
    projectOrderConfirmed d db = db ∧
    projectOrderCancelled d db = db ∧
    run_subscriber (⟨"OrderConfirmed", d⟩ :: rest) db = run_subscriber rest db ∧
    run_subscriber (⟨"OrderCancelled", d⟩ :: rest) db = run_subscriber rest db := by
  have hc : projectOrderConfirmed d db = db := by rw [projectOrderConfirmed, h]
  have hx : projectOrderCancelled d db = db := by rw [projectOrderCancelled, h]
  refine ⟨hc, hx, ?_, ?_⟩
  · rw [run_subscriber, run_subscriber, List.foldl_cons]
    congr 1
  · rw [run_subscriber, run_subscriber, List.foldl_cons]
    congr 1

/-- Witness for C9: the empty marketing database and a confirm for order
"o9". -/
theorem confirm_unknown_order_noop_witness :
    lookupRow "o9" (⟨[], [], [], [], []⟩ : MarketingDB).snapshot = none ∧
    (projectOrderConfirmed { order_id := "o9" } ⟨[], [], [], [], []⟩ =
        ⟨[], [], [], [], []⟩ ∧
     projectOrderCancelled { order_id := "o9" } ⟨[], [], [], [], []⟩ =
        ⟨[], [], [], [], []⟩ ∧
     run_subscriber [⟨"OrderConfirmed", { order_id := "o9" }⟩]
        ⟨[], [], [], [], []⟩ = run_subscriber [] ⟨[], [], [], [], []⟩ ∧
     run_subscriber [⟨"OrderCancelled", { order_id := "o9" }⟩]
        ⟨[], [], [], [], []⟩ = run_subscriber [] ⟨[], [], [], [], []⟩) :=
  ⟨rfl, confirm_unknown_order_noop { order_id := "o9" } ⟨[], [], [], [], []⟩
    [] rfl⟩

-- ────────────────────────────────────────────────────────────────────
-- Claim C10 — ConfirmOrder / CancelOrder check no precondition
-- ────────────────────────────────────────────────────────────────────

/-- C10: `confirm_order` checks no precondition on the order's existence or
status: on any (sorted) event stream — in particular the empty stream, where
the append lands at version 1, and a stream ending in `OrderCancelled` — it
appends `OrderConfirmed` at the next version and returns an aggregate in
status CONFIRMED; `cancel_order` symmetrically always appends
`OrderCancelled` and returns CANCELLED. -/
theorem confirm_cancel_no_precondition (os : OrderStore) (oid reason : String)
    (h : sortedByVersion os.events) :
    (∃ agg os', confirm_order os oid = some (agg, os') ∧
      agg.status = "CONFIRMED" ∧
      os'.events = os.events ++
        [⟨"OrderConfirmed", { order_id := oid }, currentVersion os.events + 1⟩]) ∧
    (∃ agg os', cancel_order os oid reason = some (agg, os') ∧
      agg.status = "CANCELLED" ∧
      os'.events = os.events ++
        [⟨"OrderCancelled", { order_id := oid, reason := reason },
          currentVersion os.events + 1⟩]) := by
  have hload : load_events os.events = os.events := load_events_sorted _ h
  have hver : (OrderAggregate.from_events (load_events os.events)).version
      = currentVersion os.events := by
    rw [hload]; exact from_events_version _ h
  constructor
  · have hc : confirm_order os oid =
        some ({ OrderAggregate.from_events (load_events os.events) with
                status := "CONFIRMED"
                version :=
                  (OrderAggregate.from_events (load_events os.events)).version + 1 },
              ⟨os.events ++ [⟨"OrderConfirmed", { order_id := oid },
                  currentVersion os.events + 1⟩],
               os.readStatus.map (fun _ => "CONFIRMED")⟩) := by
      simp only [confirm_order, hver, append_at_currentVersion]
      rfl
    exact ⟨_, _, hc, rfl, rfl⟩
  · have hc : cancel_order os oid reason =
        some ({ OrderAggregate.from_events (load_events os.events) with
                status := "CANCELLED"
                version :=
                  (OrderAggregate.from_events (load_events os.events)).version + 1 },
              ⟨os.events ++ [⟨"OrderCancelled",
                  { order_id := oid, reason := reason },
                  currentVersion os.events + 1⟩],
               os.readStatus.map (fun _ => "CANCELLED")⟩) := by
      simp only [cancel_order, hver, append_at_currentVersion]
      rfl
    exact ⟨_, _, hc, rfl, rfl⟩

/-- Witness for C10: an empty stream (confirm lands at version 1, returned
status CONFIRMED) and a stream already ending in `OrderCancelled` at
version 2 (confirm appends at version 3, returned status CONFIRMED). -/
theorem confirm_cancel_no_precondition_witness :
    (sortedByVersion ([] : List StoredEvent) ∧
     (∃ agg os', confirm_order ⟨[], none⟩ "o1" = some (agg, os') ∧
        agg.status = "CONFIRMED" ∧
        os'.events = [] ++
          [⟨"OrderConfirmed", { order_id := "o1" }, currentVersion [] + 1⟩]) ∧
     (∃ agg os', cancel_order ⟨[], none⟩ "o1" "r" = some (agg, os') ∧
        agg.status = "CANCELLED" ∧
        os'.events = [] ++
          [⟨"OrderCancelled", { order_id := "o1", reason := "r" },
            currentVersion [] + 1⟩])) ∧
    (sortedByVersion cancelledStream ∧
     (∃ agg os', confirm_order ⟨cancelledStream, some "CANCELLED"⟩ "o1" =
          some (agg, os') ∧
        agg.status = "CONFIRMED" ∧
        os'.events = cancelledStream ++
          [⟨"OrderConfirmed", { order_id := "o1" },
            currentVersion cancelledStream + 1⟩]) ∧
     (∃ agg os', cancel_order ⟨cancelledStream, some "CANCELLED"⟩ "o1" "r" =
          some (agg, os') ∧
        agg.status = "CANCELLED" ∧
        os'.events = cancelledStream ++
          [⟨"OrderCancelled", { order_id := "o1", reason := "r" },
            currentVersion cancelledStream + 1⟩])) :=
  ⟨⟨by decide,
    confirm_cancel_no_precondition ⟨[], none⟩ "o1" "r" (by decide)⟩,
   ⟨by simp [sortedByVersion, cancelledStream],
    confirm_cancel_no_precondition ⟨cancelledStream, some "CANCELLED"⟩
      "o1" "r" (by simp [sortedByVersion, cancelledStream])⟩⟩

-- ────────────────────────────────────────────────────────────────────
-- Claim C7 — one terminal event, full log on every path
-- ────────────────────────────────────────────────────────────────────

/-- C7: every saga execution publishes exactly one terminal event —
`SagaFailed`, `SagaCompensated` or `SagaCompleted` — and on every path the
returned saga_log records all executed steps (step 1 alone on step-1
failure, steps 1,2,3 otherwise), each marked COMPLETED or FAILED. -/
theorem saga_one_terminal_event (f : Fates) (inp : OrderInput) (w : World) :
    ((execute f inp w).1.published = ["SagaFailed"] ∧
       (execute f inp w).1.saga_log.map (fun e => e.step) = [1] ∨
     (execute f inp w).1.published = ["SagaCompensated"] ∧
       (execute f inp w).1.saga_log.map (fun e => e.step) = [1, 2, 3] ∨
     (execute f inp w).1.published = ["SagaCompleted"] ∧
       (execute f inp w).1.saga_log.map (fun e => e.step) = [1, 2, 3]) ∧
    (execute f inp w).1.saga_log.all
      (fun e => e.status == "COMPLETED" || e.status == "FAILED") = true := by
  cases hcr : f.create with
  | transportError => simp [execute, hcr, markLast]
  | delivered =>
    cases hco : create_order inp w.order with
    | none => simp [execute, hcr, hco, markLast]
    | some p =>
      obtain ⟨agg1, os1⟩ := p
      cases hrs : f.reserve with
      | transportError =>
        cases hca : f.cancel with
        | delivered =>
          simp [execute, hcr, hco, hrs, compensate, hca, markLast]
        | transportError =>
          simp [execute, hcr, hco, hrs, compensate, hca, markLast]
      | delivered =>
        rcases hre : reserve_inventory w.inv inp.product_id inp.order_id
          inp.quantity with ⟨res, inv2⟩
        cases hsu : res.success with
        | true =>
          cases hcf : f.confirm with
          | delivered =>
            simp [execute, hcr, hco, hrs, hre, hsu, hcf, markLast]
          | transportError =>
            simp [execute, hcr, hco, hrs, hre, hsu, hcf, markLast]
        | false =>
          cases hca : f.cancel with
          | delivered =>
            simp [execute, hcr, hco, hrs, hre, hsu, compensate, hca, markLast]
          | transportError =>
            simp [execute, hcr, hco, hrs, hre, hsu, compensate, hca, markLast]

-- ────────────────────────────────────────────────────────────────────
-- Claim C6 — step-3 (ConfirmOrder) failure
-- ────────────────────────────────────────────────────────────────────

/-- An append into the empty store at expected version 0 lands at
version 1. -/
theorem append_event_nil (t : String) (d : EventPayload) :
    append_event [] t d 0 = some [⟨t, d, 1⟩] := rfl

/-- An append at expected version 1 into a store holding only version 1
lands at version 2. -/
theorem append_event_cons_one (u : String) (c : EventPayload)
    (t : String) (d : EventPayload) :
    append_event [⟨u, c, 1⟩] t d 1 = some [⟨u, c, 1⟩, ⟨t, d, 2⟩] := rfl

/-- C6: when steps 1 and 2 run and step 3's ConfirmOrder call fails, the
step-3 log entry is FAILED, `SagaCompleted` is still published, the result
is `success=true`, the order remains PENDING and the inventory stays
reserved (reserved was incremented by the order quantity). -/
theorem saga_step3_failure (f : Fates) (inp : OrderInput) (w : World)
    (row : InvRow)
    (hev : w.order.events = []) (hrs : w.order.readStatus = none)
    (hrow : w.inv.row = some row)
    (hav : inp.quantity ≤ row.quantity - row.reserved)
    (hc : f.create = .delivered) (hr : f.reserve = .delivered)
    (hf : f.confirm = .transportError) :
    (execute f inp w).1.success = true ∧
    (execute f inp w).1.published = ["SagaCompleted"] ∧
    (execute f inp w).1.saga_log.map (fun e => (e.step, e.status)) =
      [(1, "COMPLETED"), (2, "COMPLETED"), (3, "FAILED")] ∧
    aggStatus (execute f inp w).2 = "PENDING" ∧
    (execute f inp w).2.order.readStatus = some "PENDING" ∧
    reservedOf (execute f inp w).2 = some (row.reserved + inp.quantity) := by
  obtain ⟨⟨oev, ors⟩, irow, iev⟩ := w
  dsimp only at hev hrs hrow
  subst hev; subst hrs; subst hrow
  simp [execute, hc, hr, hf, create_order, reserve_inventory,
    append_event_nil, append_at_currentVersion,
    not_lt.mpr hav, aggStatus, reservedOf, load_events, insertByVersion,
    OrderAggregate.from_events, OrderAggregate.apply_event,
    OrderAggregate.apply_order_created, markLast]

/-- Witness for C6: fresh order, stock `{quantity 10, reserved 0}`,
order quantity 3, confirm call transport-fails. -/
theorem saga_step3_failure_witness :
    ((⟨⟨[], none⟩, ⟨some ⟨10, 0⟩, []⟩⟩ : World).order.events = [] ∧
     (⟨⟨[], none⟩, ⟨some ⟨10, 0⟩, []⟩⟩ : World).order.readStatus = none ∧
     (⟨⟨[], none⟩, ⟨some ⟨10, 0⟩, []⟩⟩ : World).inv.row = some ⟨10, 0⟩ ∧
     ({ order_id := "o1", product_id := "p1", quantity := 3 } :
        OrderInput).quantity ≤ (10 : Int) - 0) ∧
    ((execute ⟨.delivered, .delivered, .delivered, .transportError⟩
        { order_id := "o1", product_id := "p1", quantity := 3 }
        ⟨⟨[], none⟩, ⟨some ⟨10, 0⟩, []⟩⟩).1.success = true ∧
     (execute ⟨.delivered, .delivered, .delivered, .transportError⟩
        { order_id := "o1", product_id := "p1", quantity := 3 }
        ⟨⟨[], none⟩, ⟨some ⟨10, 0⟩, []⟩⟩).1.published = ["SagaCompleted"] ∧
     (execute ⟨.delivered, .delivered, .delivered, .transportError⟩
        { order_id := "o1", product_id := "p1", quantity := 3 }
        ⟨⟨[], none⟩, ⟨some ⟨10, 0⟩, []⟩⟩).1.saga_log.map
          (fun e => (e.step, e.status)) =
        [(1, "COMPLETED"), (2, "COMPLETED"), (3, "FAILED")] ∧
     aggStatus (execute ⟨.delivered, .delivered, .delivered, .transportError⟩
        { order_id := "o1", product_id := "p1", quantity := 3 }
        ⟨⟨[], none⟩, ⟨some ⟨10, 0⟩, []⟩⟩).2 = "PENDING" ∧
     (execute ⟨.delivered, .delivered, .delivered, .transportError⟩
        { order_id := "o1", product_id := "p1", quantity := 3 }
        ⟨⟨[], none⟩, ⟨some ⟨10, 0⟩, []⟩⟩).2.order.readStatus = some "PENDING" ∧
     reservedOf (execute ⟨.delivered, .delivered, .delivered, .transportError⟩
        { order_id := "o1", product_id := "p1", quantity := 3 }
        ⟨⟨[], none⟩, ⟨some ⟨10, 0⟩, []⟩⟩).2 = some ((0 : Int) + 3)) :=
  ⟨⟨rfl, rfl, rfl, by decide⟩,
   saga_step3_failure ⟨.delivered, .delivered, .delivered, .transportError⟩
     { order_id := "o1", product_id := "p1", quantity := 3 }
     ⟨⟨[], none⟩, ⟨some ⟨10, 0⟩, []⟩⟩ ⟨10, 0⟩ rfl rfl rfl (by decide)
     rfl rfl rfl⟩

-- ────────────────────────────────────────────────────────────────────
-- Claim C1 — successful saga: order CONFIRMED, reserved incremented
-- ────────────────────────────────────────────────────────────────────

/-- The compensation branch always returns `success=false`, whatever the
cancel call's fate. -/
theorem compensate_success_eq (f : Fates) (oid reason : String)
    (log : List SagaStep) (w : World) :
    (compensate f oid reason log w).1.success = false := by
  cases hca : f.cancel <;> simp [compensate, hca]

/-- The compensation branch always publishes `SagaCompensated`, whatever
the cancel call's fate. -/
theorem compensate_published_eq (f : Fates) (oid reason : String)
    (log : List SagaStep) (w : World) :
    (compensate f oid reason log w).1.published = ["SagaCompensated"] := by
  cases hca : f.cancel <;> simp [compensate, hca]

/-- Counterexample to C1 as stated: with steps 1 and 2 delivered and the
step-3 ConfirmOrder call lost to a transport error, `execute` returns
`success=true` while the order aggregate is still PENDING, not CONFIRMED. -/
theorem saga_success_not_confirmed_cex :
    (execute ⟨.delivered, .delivered, .delivered, .transportError⟩
       { order_id := "o1", product_id := "p1", quantity := 3 }
       ⟨⟨[], none⟩, ⟨some ⟨10, 0⟩, []⟩⟩).1.success = true ∧
    aggStatus (execute ⟨.delivered, .delivered, .delivered, .transportError⟩
       { order_id := "o1", product_id := "p1", quantity := 3 }
       ⟨⟨[], none⟩, ⟨some ⟨10, 0⟩, []⟩⟩).2 = "PENDING" ∧
    ("PENDING" : String) ≠ "CONFIRMED" :=
  ⟨rfl, rfl, by decide⟩

/-- C1 (amended): a saga execution that returns `success=true` *and whose
step-3 ConfirmOrder call was delivered* ends with the order aggregate (and
read model) CONFIRMED and the inventory `reserved` incremented by exactly
the order quantity.  (As stated the claim fails: `success=true` is also
returned when step 3 transport-fails, leaving the order PENDING — see the
counterexample.) -/
theorem saga_success_confirmed (f : Fates) (inp : OrderInput) (w : World)
    (hev : w.order.events = []) (hrs : w.order.readStatus = none)
    (hcf : f.confirm = .delivered)
    (hsucc : (execute f inp w).1.success = true) :
    aggStatus (execute f inp w).2 = "CONFIRMED" ∧
    (execute f inp w).2.order.readStatus = some "CONFIRMED" ∧
    reservedOf (execute f inp w).2 =
      (reservedOf w).map (fun r => r + inp.quantity) := by
  obtain ⟨⟨oev, ors⟩, irow, iev⟩ := w
  dsimp only at hev hrs
  subst hev; subst hrs
  cases hcr : f.create with
  | transportError => rw [execute, hcr] at hsucc; simp at hsucc
  | delivered =>
    cases hrsv : f.reserve with
    | transportError =>
      rw [execute] at hsucc
      simp [hcr, hrsv, create_order, append_event_nil,
        compensate_success_eq] at hsucc
    | delivered =>
      cases hirow : irow with
      | none =>
        rw [execute] at hsucc
        simp [hcr, hrsv, hirow, create_order, append_event_nil,
          reserve_inventory, compensate_success_eq] at hsucc
      | some row =>
        by_cases hav : row.quantity - row.reserved < inp.quantity
        · rw [execute] at hsucc
          simp [hcr, hrsv, hirow, create_order, append_event_nil,
            reserve_inventory, if_pos hav, append_at_currentVersion,
            compensate_success_eq] at hsucc
        · simp [execute, hcr, hrsv, hcf, hirow, create_order,
            append_event_nil, reserve_inventory, if_neg hav,
            append_at_currentVersion, confirmEndpoint, confirm_order,
            append_event_cons_one, aggStatus, reservedOf, load_events,
            insertByVersion, OrderAggregate.from_events,
            OrderAggregate.apply_event, OrderAggregate.apply_order_created,
            OrderAggregate.apply_order_confirmed, markLast]

/-- Witness for the amended C1: fresh order, stock `{quantity 10,
reserved 0}`, quantity 3, all calls delivered. -/
theorem saga_success_confirmed_witness :
    ((⟨⟨[], none⟩, ⟨some ⟨10, 0⟩, []⟩⟩ : World).order.events = [] ∧
     (⟨⟨[], none⟩, ⟨some ⟨10, 0⟩, []⟩⟩ : World).order.readStatus = none ∧
     (execute ⟨.delivered, .delivered, .delivered, .delivered⟩
        { order_id := "o1", product_id := "p1", quantity := 3 }
        ⟨⟨[], none⟩, ⟨some ⟨10, 0⟩, []⟩⟩).1.success = true) ∧
    (aggStatus (execute ⟨.delivered, .delivered, .delivered, .delivered⟩
        { order_id := "o1", product_id := "p1", quantity := 3 }
        ⟨⟨[], none⟩, ⟨some ⟨10, 0⟩, []⟩⟩).2 = "CONFIRMED" ∧
     (execute ⟨.delivered, .delivered, .delivered, .delivered⟩
        { order_id := "o1", product_id := "p1", quantity := 3 }
        ⟨⟨[], none⟩, ⟨some ⟨10, 0⟩, []⟩⟩).2.order.readStatus =
          some "CONFIRMED" ∧
     reservedOf (execute ⟨.delivered, .delivered, .delivered, .delivered⟩
        { order_id := "o1", product_id := "p1", quantity := 3 }
        ⟨⟨[], none⟩, ⟨some ⟨10, 0⟩, []⟩⟩).2 =
       (reservedOf ⟨⟨[], none⟩, ⟨some ⟨10, 0⟩, []⟩⟩).map
         (fun r =>
           r + ({ order_id := "o1", product_id := "p1", quantity := 3 } :
             OrderInput).quantity)) :=
  ⟨⟨rfl, rfl, rfl⟩,
   saga_success_confirmed ⟨.delivered, .delivered, .delivered, .delivered⟩
     { order_id := "o1", product_id := "p1", quantity := 3 }
     ⟨⟨[], none⟩, ⟨some ⟨10, 0⟩, []⟩⟩ rfl rfl rfl rfl⟩

-- ────────────────────────────────────────────────────────────────────
-- Claim C2 — compensation path: order CANCELLED, inventory unchanged
-- ────────────────────────────────────────────────────────────────────

/-- Counterexample to C2 as stated: insufficient stock (business reject)
takes the compensation path, but the compensating CancelOrder call itself
transport-fails, so the order ends PENDING, not CANCELLED. -/
theorem saga_compensated_not_cancelled_cex :
    (execute ⟨.delivered, .delivered, .transportError, .delivered⟩
       { order_id := "o1", product_id := "p1", quantity := 5 }
       ⟨⟨[], none⟩, ⟨some ⟨2, 0⟩, []⟩⟩).1.published = ["SagaCompensated"] ∧
    aggStatus (execute ⟨.delivered, .delivered, .transportError, .delivered⟩
       { order_id := "o1", product_id := "p1", quantity := 5 }
       ⟨⟨[], none⟩, ⟨some ⟨2, 0⟩, []⟩⟩).2 = "PENDING" ∧
    ("PENDING" : String) ≠ "CANCELLED" :=
  ⟨rfl, rfl, by decide⟩

/-- C2 (amended): every execution that takes the compensation path
(publishes `SagaCompensated`) returns `success=false` and leaves the
inventory read-model row — both `reserved` and `quantity` — unchanged; the
order ends CANCELLED provided the compensating CancelOrder call is
delivered, and remains PENDING when that call itself transport-fails.  (As
stated the claim fails on the latter case — see the counterexample.) -/
theorem saga_compensation_frame (f : Fates) (inp : OrderInput) (w : World)
    (hev : w.order.events = []) (hrs : w.order.readStatus = none)
    (hcomp : (execute f inp w).1.published = ["SagaCompensated"]) :
    (execute f inp w).1.success = false ∧
    reservedOf (execute f inp w).2 = reservedOf w ∧
    quantityOf (execute f inp w).2 = quantityOf w ∧
    (f.cancel = .delivered →
      aggStatus (execute f inp w).2 = "CANCELLED" ∧
      (execute f inp w).2.order.readStatus = some "CANCELLED") ∧
    (f.cancel = .transportError →
      aggStatus (execute f inp w).2 = "PENDING") := by
  obtain ⟨⟨oev, ors⟩, irow, iev⟩ := w
  dsimp only at hev hrs
  subst hev; subst hrs
  cases hcr : f.create with
  | transportError => rw [execute, hcr] at hcomp; simp at hcomp
  | delivered =>
    cases hrsv : f.reserve with
    | transportError =>
      cases hca : f.cancel with
      | delivered =>
        simp [execute, hcr, hrsv, create_order, append_event_nil,
          compensate, hca, cancelEndpoint, cancel_order,
          append_event_cons_one, aggStatus, reservedOf, quantityOf,
          load_events, insertByVersion, OrderAggregate.from_events,
          OrderAggregate.apply_event, OrderAggregate.apply_order_created,
          OrderAggregate.apply_order_cancelled, markLast]
      | transportError =>
        simp [execute, hcr, hrsv, create_order, append_event_nil,
          compensate, hca, aggStatus, reservedOf, quantityOf, load_events,
          insertByVersion, OrderAggregate.from_events,
          OrderAggregate.apply_event, OrderAggregate.apply_order_created,
          markLast]
    | delivered =>
      cases hirow : irow with
      | none =>
        cases hca : f.cancel with
        | delivered =>
          simp [execute, hcr, hrsv, hirow, create_order, append_event_nil,
            reserve_inventory, compensate, hca, cancelEndpoint, cancel_order,
            append_event_cons_one, aggStatus, reservedOf, quantityOf,
            load_events, insertByVersion, OrderAggregate.from_events,
            OrderAggregate.apply_event, OrderAggregate.apply_order_created,
            OrderAggregate.apply_order_cancelled, markLast]
        | transportError =>
          simp [execute, hcr, hrsv, hirow, create_order, append_event_nil,
            reserve_inventory, compensate, hca, aggStatus, reservedOf,
            quantityOf, load_events, insertByVersion,
            OrderAggregate.from_events, OrderAggregate.apply_event,
            OrderAggregate.apply_order_created, markLast]
      | some row =>
        by_cases hav : row.quantity - row.reserved < inp.quantity
        · cases hca : f.cancel with
          | delivered =>
            simp [execute, hcr, hrsv, hirow, create_order, append_event_nil,
              reserve_inventory, if_pos hav, append_at_currentVersion,
              compensate, hca, cancelEndpoint, cancel_order,
              append_event_cons_one, aggStatus, reservedOf, quantityOf,
              load_events, insertByVersion, OrderAggregate.from_events,
              OrderAggregate.apply_event, OrderAggregate.apply_order_created,
              OrderAggregate.apply_order_cancelled, markLast]
          | transportError =>
            simp [execute, hcr, hrsv, hirow, create_order, append_event_nil,
              reserve_inventory, if_pos hav, append_at_currentVersion,
              compensate, hca, aggStatus, reservedOf, quantityOf,
              load_events, insertByVersion, OrderAggregate.from_events,
              OrderAggregate.apply_event, OrderAggregate.apply_order_created,
              markLast]
        · rw [execute] at hcomp
          cases hcf : f.confirm <;>
            simp [hcr, hrsv, hcf, hirow, create_order, append_event_nil,
              reserve_inventory, if_neg hav, append_at_currentVersion,
              markLast] at hcomp

/-- Witness for the amended C2: business reject (stock 2, request 5) with
the compensation delivered: order CANCELLED, inventory row unchanged. -/
theorem saga_compensation_frame_witness :
    ((⟨⟨[], none⟩, ⟨some ⟨2, 0⟩, []⟩⟩ : World).order.events = [] ∧
     (⟨⟨[], none⟩, ⟨some ⟨2, 0⟩, []⟩⟩ : World).order.readStatus = none ∧
     (execute ⟨.delivered, .delivered, .delivered, .delivered⟩
        { order_id := "o1", product_id := "p1", quantity := 5 }
        ⟨⟨[], none⟩, ⟨some ⟨2, 0⟩, []⟩⟩).1.published = ["SagaCompensated"]) ∧
    ((execute ⟨.delivered, .delivered, .delivered, .delivered⟩
        { order_id := "o1", product_id := "p1", quantity := 5 }
        ⟨⟨[], none⟩, ⟨some ⟨2, 0⟩, []⟩⟩).1.success = false ∧
     reservedOf (execute ⟨.delivered, .delivered, .delivered, .delivered⟩
        { order_id := "o1", product_id := "p1", quantity := 5 }
        ⟨⟨[], none⟩, ⟨some ⟨2, 0⟩, []⟩⟩).2 =
       reservedOf ⟨⟨[], none⟩, ⟨some ⟨2, 0⟩, []⟩⟩ ∧
     quantityOf (execute ⟨.delivered, .delivered, .delivered, .delivered⟩
        { order_id := "o1", product_id := "p1", quantity := 5 }
        ⟨⟨[], none⟩, ⟨some ⟨2, 0⟩, []⟩⟩).2 =
       quantityOf ⟨⟨[], none⟩, ⟨some ⟨2, 0⟩, []⟩⟩ ∧
     ((⟨.delivered, .delivered, .delivered, .delivered⟩ : Fates).cancel =
          .delivered →
       aggStatus (execute ⟨.delivered, .delivered, .delivered, .delivered⟩
          { order_id := "o1", product_id := "p1", quantity := 5 }
          ⟨⟨[], none⟩, ⟨some ⟨2, 0⟩, []⟩⟩).2 = "CANCELLED" ∧
       (execute ⟨.delivered, .delivered, .delivered, .delivered⟩
          { order_id := "o1", product_id := "p1", quantity := 5 }
          ⟨⟨[], none⟩, ⟨some ⟨2, 0⟩, []⟩⟩).2.order.readStatus =
         some "CANCELLED") ∧
     ((⟨.delivered, .delivered, .delivered, .delivered⟩ : Fates).cancel =
          .transportError →
       aggStatus (execute ⟨.delivered, .delivered, .delivered, .delivered⟩
          { order_id := "o1", product_id := "p1", quantity := 5 }
          ⟨⟨[], none⟩, ⟨some ⟨2, 0⟩, []⟩⟩).2 = "PENDING")) :=
  ⟨⟨rfl, rfl, rfl⟩,
   saga_compensation_frame ⟨.delivered, .delivered, .delivered, .delivered⟩
     { order_id := "o1", product_id := "p1", quantity := 5 }
     ⟨⟨[], none⟩, ⟨some ⟨2, 0⟩, []⟩⟩ rfl rfl rfl⟩
